import Mathlib

/-!
Verification of the chatshield-backend abuse-mitigation and connection-registry
logic, shallowly embedded from the Python source.

Time is modelled in whole seconds (`Nat`); `datetime.utcnow()` becomes an
explicit `now : Nat` parameter.  Database-backed per-(user, room) records
(`UserMute` rows) become an explicit `UserMuteState` value threaded through
the operations, and each service method becomes a pure function returning the
updated state together with the value the Python method returns.
-/

namespace ChatShield

/-! ## Mute service (src/app/services/mute.py) -/

/-- `TOXIC_THRESHOLD = 5` — number of toxic messages before mute. -/
def TOXIC_THRESHOLD : Nat := 5

/-- `MUTE_DURATION_MINUTES = 5` — duration of mute in minutes. -/
def MUTE_DURATION_MINUTES : Nat := 5

/-- The mutable fields of a `UserMute` database row for one (user, room) key.
Timestamps are seconds since an arbitrary epoch. -/
structure UserMuteState where
  warning_count : Nat
  consecutive_toxic_count : Nat
  is_muted : Bool
  muted_at : Option Nat
  mute_expires_at : Option Nat
  total_mute_count : Nat
deriving DecidableEq, Repr

/-- A freshly created `UserMute` record (`get_or_create_user_mute`):
all counters zero, not muted. -/
def freshUserMute : UserMuteState :=
  { warning_count := 0
    consecutive_toxic_count := 0
    is_muted := false
    muted_at := none
    mute_expires_at := none
    total_mute_count := 0 }

/-- The `action` component of `process_message_toxicity`'s result. -/
inductive MuteAction where
  | none
  | warning
  | muted
deriving DecidableEq, Repr

/-- Embeds the state-updating core of `MuteService.process_message_toxicity`
(mute.py lines 264-298): on a toxic message increment
`consecutive_toxic_count` and `warning_count`; when the consecutive count
reaches `TOXIC_THRESHOLD`, mute for `MUTE_DURATION_MINUTES`, increment
`total_mute_count` and reset the consecutive count; on a non-toxic message
change nothing (cumulative system). -/
def processMessageToxicity (s : UserMuteState) (isToxic : Bool) (now : Nat) :
    UserMuteState × MuteAction :=
  if isToxic then
    let c := s.consecutive_toxic_count + 1
    let w := s.warning_count + 1
    if TOXIC_THRESHOLD ≤ c then
      ({ warning_count := w
         consecutive_toxic_count := 0
         is_muted := true
         muted_at := some now
         mute_expires_at := some (now + 60 * MUTE_DURATION_MINUTES)
         total_mute_count := s.total_mute_count + 1 }, MuteAction.muted)
    else
      ({ s with consecutive_toxic_count := c, warning_count := w }, MuteAction.warning)
  else
    (s, MuteAction.none)

/-- Runs `process_message_toxicity` over a sequence of (is_toxic, now) calls,
collecting the actions in order. -/
def processSeq (s : UserMuteState) : List (Bool × Nat) → UserMuteState × List MuteAction
  | [] => (s, [])
  | (b, t) :: rest =>
    let r1 := processMessageToxicity s b t
    let r2 := processSeq r1.1 rest
    (r2.1, r1.2 :: r2.2)

/-- The dictionary returned by `MuteService.check_mute_status`. -/
structure MuteStatus where
  is_muted : Bool
  mute_expires_at : Option Nat
  remaining_seconds : Option Int
  warning_count : Nat
  consecutive_toxic_count : Nat
  total_mute_count : Nat
  just_unmuted : Bool
deriving DecidableEq, Repr

/-- Embeds `MuteService.check_mute_status` (mute.py lines 161-190): if the
record is muted and the expiry has passed, auto-unmute (clear the mute fields
and reset `consecutive_toxic_count`) and report `just_unmuted = true`;
otherwise leave the record alone.  Returns the updated record together with
the status snapshot. -/
def checkMuteStatus (s : UserMuteState) (now : Nat) : UserMuteState × MuteStatus :=
  let step : UserMuteState × Bool :=
    if s.is_muted then
      match s.mute_expires_at with
      | some t =>
        if t ≤ now then
          ({ s with is_muted := false
                    muted_at := none
                    mute_expires_at := none
                    consecutive_toxic_count := 0 }, true)
        else (s, false)
      | none => (s, false)
    else (s, false)
  let s1 := step.1
  let remaining : Option Int :=
    if s1.is_muted then
      match s1.mute_expires_at with
      | some t => some (max 0 ((t : Int) - (now : Int)))
      | none => none
    else none
  (s1,
   { is_muted := s1.is_muted
     mute_expires_at := s1.mute_expires_at
     remaining_seconds := remaining
     warning_count := s1.warning_count
     consecutive_toxic_count := s1.consecutive_toxic_count
     total_mute_count := s1.total_mute_count
     just_unmuted := step.2 })

/-- Embeds `MuteService.unmute_user` (mute.py lines 469-508) acting on the
record for the requested (user, room): `none` models a missing user or
missing `UserMute` row.  Reports `true` and clears the mute only when the
record exists and is currently muted. -/
def unmuteUser : Option UserMuteState → Bool × Option UserMuteState
  | Option.none => (false, Option.none)
  | Option.some s =>
    if s.is_muted then
      (true, Option.some { s with is_muted := false
                                  muted_at := none
                                  mute_expires_at := none
                                  consecutive_toxic_count := 0 })
    else (false, Option.some s)

/-! ## Claims about the mute service -/

/-- C1: starting from a fresh record, five toxic messages (at arbitrary times
t1..t5) produce the action sequence
[warning, warning, warning, warning, muted]; after the fifth the record is
muted with `total_mute_count = 1`, `mute_expires_at = t5 + 300` seconds and
`consecutive_toxic_count = 0`. -/
theorem mute_after_five_toxic (t1 t2 t3 t4 t5 : Nat) :
    processSeq freshUserMute [(true, t1), (true, t2), (true, t3), (true, t4), (true, t5)] =
      ({ warning_count := 5
         consecutive_toxic_count := 0
         is_muted := true
         muted_at := some t5
         mute_expires_at := some (t5 + 300)
         total_mute_count := 1 },
       [MuteAction.warning, MuteAction.warning, MuteAction.warning,
        MuteAction.warning, MuteAction.muted]) := rfl

/-- C2: a non-toxic message returns action `none` and leaves every field of
the record unchanged; in particular it does not reset
`consecutive_toxic_count`. -/
theorem nontoxic_message_noop (s : UserMuteState) (now : Nat) :
    processMessageToxicity s false now = (s, MuteAction.none) := rfl

/-- C4: for a muted record whose expiry `t` has passed (`t ≤ now`), the first
`check_mute_status` call reports `is_muted = false` and `just_unmuted = true`
and resets `consecutive_toxic_count` to 0 (also clearing the mute
timestamps); any later call on the resulting record reports
`just_unmuted = false` and leaves the record unchanged, so every subsequent
check before the next mute reports `just_unmuted = false`. -/
theorem check_mute_status_expiry (s : UserMuteState) (t now : Nat)
    (hm : s.is_muted = true) (he : s.mute_expires_at = some t) (hn : t ≤ now) :
    (checkMuteStatus s now).2.is_muted = false ∧
    (checkMuteStatus s now).2.just_unmuted = true ∧
    (checkMuteStatus s now).1.consecutive_toxic_count = 0 ∧
    (checkMuteStatus s now).1.is_muted = false ∧
    (checkMuteStatus s now).1.mute_expires_at = none ∧
    ∀ now2 : Nat,
      (checkMuteStatus (checkMuteStatus s now).1 now2).2.just_unmuted = false ∧
      (checkMuteStatus (checkMuteStatus s now).1 now2).1 = (checkMuteStatus s now).1 := by
  have hstate : (checkMuteStatus s now).1 =
      { s with is_muted := false
               muted_at := none
               mute_expires_at := none
               consecutive_toxic_count := 0 } := by
    simp [checkMuteStatus, hm, he, hn]
  refine ⟨?_, ?_, ?_, ?_, ?_, ?_⟩
  · simp [checkMuteStatus, hm, he, hn]
  · simp [checkMuteStatus, hm, he, hn]
  · rw [hstate]
  · rw [hstate]
  · rw [hstate]
  · intro now2
    rw [hstate]
    constructor
    · simp [checkMuteStatus]
    · simp [checkMuteStatus]

/-- Witness for C4 at a concrete muted record with expiry 300 checked at time
300, then re-checked at time 301. -/
theorem check_mute_status_expiry_witness :
    (checkMuteStatus ⟨3, 2, true, some 0, some 300, 1⟩ 300).2.just_unmuted = true ∧
    (checkMuteStatus ⟨3, 2, true, some 0, some 300, 1⟩ 300).2.is_muted = false ∧
    (checkMuteStatus (checkMuteStatus ⟨3, 2, true, some 0, some 300, 1⟩ 300).1 301).2.just_unmuted
      = false := by
  have h := check_mute_status_expiry ⟨3, 2, true, some 0, some 300, 1⟩ 300 300 rfl rfl
    (by decide)
  exact ⟨h.2.1, h.1, (h.2.2.2.2.2 301).1⟩

/-- C8: `unmute_user` on a missing record reports false and changes nothing;
on an existing record that is not muted it reports false and changes nothing;
on a muted record — regardless of whether the expiry has passed — it reports
true, clears `is_muted`, `muted_at` and `mute_expires_at`, and resets
`consecutive_toxic_count` to 0. -/
theorem unmute_user_spec :
    (unmuteUser Option.none = (false, Option.none)) ∧
    (∀ s : UserMuteState, s.is_muted = false → unmuteUser (some s) = (false, some s)) ∧
    (∀ s : UserMuteState, s.is_muted = true →
      unmuteUser (some s) =
        (true, some { s with is_muted := false
                             muted_at := none
                             mute_expires_at := none
                             consecutive_toxic_count := 0 })) := by
  refine ⟨rfl, ?_, ?_⟩ <;> intro s h <;> simp [unmuteUser, h]

/-- Witness for C8: manual unmute of a record muted until time 10 (before its
natural expiry) succeeds and resets the consecutive count; unmute of an
unmuted record is a reporting no-op. -/
theorem unmute_user_spec_witness :
    unmuteUser (some ⟨3, 2, true, some 5, some 10, 1⟩) =
      (true, some ⟨3, 0, false, none, none, 1⟩) ∧
    unmuteUser (some ⟨3, 2, false, none, none, 1⟩) =
      (false, some ⟨3, 2, false, none, none, 1⟩) :=
  ⟨unmute_user_spec.2.2 ⟨3, 2, true, some 5, some 10, 1⟩ rfl,
   unmute_user_spec.2.1 ⟨3, 2, false, none, none, 1⟩ rfl⟩

/-- C10: `process_message_toxicity` never consults the mute state: for a
record that is currently muted, a toxic message still increments
`warning_count`, and either (a) the consecutive count reaches the threshold,
in which case `muted_at` and `mute_expires_at` are overwritten with the fresh
`now` / `now + 300` and `total_mute_count` is incremented again (extending
the existing mute), or (b) the consecutive count is simply incremented with
action `warning` and the mute fields are left as they were. -/
theorem process_toxicity_ignores_mute (s : UserMuteState) (now : Nat)
    (hm : s.is_muted = true) :
    ((processMessageToxicity s true now).1.warning_count = s.warning_count + 1) ∧
    (TOXIC_THRESHOLD ≤ s.consecutive_toxic_count + 1 →
      processMessageToxicity s true now =
        ({ warning_count := s.warning_count + 1
           consecutive_toxic_count := 0
           is_muted := true
           muted_at := some now
           mute_expires_at := some (now + 300)
           total_mute_count := s.total_mute_count + 1 }, MuteAction.muted)) ∧
    (s.consecutive_toxic_count + 1 < TOXIC_THRESHOLD →
      processMessageToxicity s true now =
        ({ s with consecutive_toxic_count := s.consecutive_toxic_count + 1
                  warning_count := s.warning_count + 1 }, MuteAction.warning)) := by
  refine ⟨?_, ?_, ?_⟩
  · by_cases h : TOXIC_THRESHOLD ≤ s.consecutive_toxic_count + 1 <;>
      simp [processMessageToxicity, h]
  · intro h
    simp [processMessageToxicity, h, MUTE_DURATION_MINUTES]
  · intro h
    simp [processMessageToxicity, Nat.not_le.mpr h]

/-- Witness for C10: a muted record with consecutive count 4 and an old mute
expiring at 300 receives a toxic message at time 200: the mute is re-issued
until 500 and `total_mute_count` rises to 2. -/
theorem process_toxicity_ignores_mute_witness :
    processMessageToxicity ⟨10, 4, true, some 0, some 300, 1⟩ true 200 =
      (⟨11, 0, true, some 200, some 500, 2⟩, MuteAction.muted) :=
  (process_toxicity_ignores_mute ⟨10, 4, true, some 0, some 300, 1⟩ 200 rfl).2.1
    (by decide)

/-! ## Toxicity analyzer (src/app/services/toxicity.py)

The Hugging Face pipeline is external: its output on a text is a
(label, score) pair.  `analyzeScores` embeds the score post-processing of
`ToxicityAnalyzer.analyze` (toxicity.py lines 77-116), which is where
`is_toxic` and `toxicity_level` are derived.  Scores are rationals in place
of Python floats; `round(x, 4)` is modelled as decimal rounding half to
even. -/

/-- Round a rational to the nearest integer, ties to even (Python `round`). -/
def roundHalfEvenInt (q : Rat) : Int :=
  let f := ⌊q⌋
  let r := q - (f : Rat)
  if r < 1 / 2 then f
  else if 1 / 2 < r then f + 1
  else if f % 2 = 0 then f else f + 1

/-- `round(x, 4)`: round to four decimal places. -/
def round4 (q : Rat) : Rat := (roundHalfEvenInt (q * 10000) : Rat) / 10000

/-- Whether `needle` is a prefix of `hay` (character lists). -/
def charsMatchAt : List Char → List Char → Bool
  | [], _ => true
  | _ :: _, [] => false
  | n :: ns, h :: hs => (n == h) && charsMatchAt ns hs

/-- Whether `needle` occurs as a contiguous substring of `hay`
(Python's `needle in hay`). -/
def charsContain (needle : List Char) : List Char → Bool
  | [] => needle.isEmpty
  | h :: hs => charsMatchAt needle (h :: hs) || charsContain needle hs

/-- Python `needle in hay` on strings. -/
def strContainsSub (hay needle : String) : Bool :=
  charsContain needle.toList hay.toList

/-- `_get_toxicity_level` (toxicity.py lines 122-141): breakpoints
0.2 / 0.4 / 0.6 / 0.8 map the score to safe / mild / moderate / high /
severe. -/
def getToxicityLevel (score : Rat) : String :=
  if score < 1 / 5 then "safe"
  else if score < 2 / 5 then "mild"
  else if score < 3 / 5 then "moderate"
  else if score < 4 / 5 then "high"
  else "severe"

/-- The fields of the scores dictionary that depend on the input (the other
sub-scores are constant 0.0). -/
structure ToxicityScores where
  toxicity : Rat
  is_toxic : Bool
  toxicity_level : String
deriving DecidableEq, Repr

/-- Embeds `ToxicityAnalyzer.analyze` (toxicity.py lines 77-116) given the
model's raw (label, score) output: map the label to a toxicity score
(`LABEL_1`/`toxic` keep the score, `LABEL_0`/`non-toxic` take `1 - score`,
otherwise a lowercase substring test on the label decides), round it to four
decimals, and derive `is_toxic` as `toxicity > 0.5` and the categorical
level. -/
def analyzeScores (label : String) (score : Rat) : ToxicityScores :=
  let toxicity_score : Rat :=
    if label = "LABEL_1" ∨ label = "toxic" then score
    else if label = "LABEL_0" ∨ label = "non-toxic" then 1 - score
    else if strContainsSub label.toLower "toxic" && !strContainsSub label.toLower "non" then
      score
    else 1 - score
  let tox := round4 toxicity_score
  { toxicity := tox
    is_toxic := decide ((1 : Rat) / 2 < tox)
    toxicity_level := getToxicityLevel tox }

/-! ## Claim about the toxicity analyzer -/

/-- C3 counterexample: a model output `LABEL_1` with score exactly 0.5 yields
a reported toxicity score of exactly 0.5 but `is_toxic = false` — the code's
cutoff is strict (`> 0.5`), so a score of exactly 0.5 is not flagged toxic,
contrary to the claim's `>= 0.5`. -/
theorem is_toxic_at_half_not_flagged :
    (analyzeScores "LABEL_1" (1 / 2)).toxicity = 1 / 2 ∧
    (analyzeScores "LABEL_1" (1 / 2)).is_toxic = false := by
  constructor <;> norm_num [analyzeScores, round4, roundHalfEvenInt]

/-- C3 (amended): for every model output, the `is_toxic` flag equals
(reported toxicity score strictly greater than 0.5); an input whose score is
exactly 0.5 is not flagged. -/
theorem is_toxic_iff_gt_half (label : String) (score : Rat) :
    (analyzeScores label score).is_toxic = true ↔
      (1 : Rat) / 2 < (analyzeScores label score).toxicity := by
  simp [analyzeScores]

/-! ## Connection manager (src/app/websocket/manager.py)

Connections are opaque handles, modelled as naturals.  `active_connections`
is a Python list, `rooms` a dict from room id to a set of connections
(modelled as a duplicate-free list), and `connection_usernames` a dict from
connection to username.  Delivery failure of `send_json` is modelled by a
predicate `fails` on connections: `fails c = true` means delivery to `c`
raises.  A broadcast returns the list of connections that were actually
delivered to, together with the manager state after cleanup. -/

@[ext]
structure ConnManager where
  active : List Nat
  rooms : String → Option (List Nat)
  usernames : Nat → Option String
deriving Inhabited

/-- Embeds `ConnectionManager.disconnect` (manager.py lines 55-77): pop the
username (defaulting to "Unknown"), remove the connection from the global
list and from the room's member set, and drop the room entry when its member
set becomes empty.  Returns the username together with the new state. -/
def disconnect (m : ConnManager) (ws : Nat) (rid : String) : String × ConnManager :=
  let username := (m.usernames ws).getD "Unknown"
  let usernames1 : Nat → Option String := fun w => if w = ws then none else m.usernames w
  let active1 := m.active.erase ws
  let rooms1 : String → Option (List Nat) :=
    match m.rooms rid with
    | some mem =>
      if ws ∈ mem then
        let mem1 := mem.erase ws
        if mem1 = [] then (fun r => if r = rid then none else m.rooms r)
        else (fun r => if r = rid then some mem1 else m.rooms r)
      else m.rooms
    | none => m.rooms
  (username, { active := active1, rooms := rooms1, usernames := usernames1 })

/-- Embeds `ConnectionManager.get_room_users` (manager.py lines 144-160):
an unknown room gives `[]`; otherwise the members' usernames with "Unknown"
as fallback. -/
def getRoomUsers (m : ConnManager) (rid : String) : List String :=
  match m.rooms rid with
  | none => []
  | some mem => mem.map (fun c => (m.usernames c).getD "Unknown")

/-- Embeds `ConnectionManager.broadcast_to_room` (manager.py lines 89-122):
unknown room delivers nothing; otherwise send to every member, catching
per-connection failures, then call `disconnect` on each failed connection. -/
def broadcastToRoom (m : ConnManager) (rid : String) (fails : Nat → Bool) :
    List Nat × ConnManager :=
  match m.rooms rid with
  | none => ([], m)
  | some mem =>
    let delivered := mem.filter (fun c => !fails c)
    let disconnected := mem.filter (fun c => fails c)
    (delivered, disconnected.foldl (fun acc c => (disconnect acc c rid).2) m)

/-- Embeds `ConnectionManager.broadcast_all` (manager.py lines 124-142):
send to every active connection, catching per-connection failures, then
remove each failed connection from `active_connections` only — `rooms` and
`connection_usernames` are not touched and `disconnect` is not called. -/
def broadcastAll (m : ConnManager) (fails : Nat → Bool) : List Nat × ConnManager :=
  let delivered := m.active.filter (fun c => !fails c)
  let disconnected := m.active.filter (fun c => fails c)
  let active1 := disconnected.foldl (fun acc c => if c ∈ acc then acc.erase c else acc) m.active
  (delivered, { m with active := active1 })

/-! ### Helper lemmas on filters over duplicate-free member lists -/

lemma filter_beq_nil {l : List Nat} {c : Nat} (hc : c ∉ l) :
    l.filter (fun y => y == c) = [] := by
  induction l with
  | nil => rfl
  | cons h t ih =>
    have h1 : ¬h = c := fun e => hc (e ▸ List.mem_cons_self h t)
    have h2 : c ∉ t := fun mm => hc (List.mem_cons_of_mem h mm)
    simp [List.filter_cons, h1, ih h2]

lemma filter_beq_singleton {l : List Nat} {c : Nat} (hnd : l.Nodup) (hc : c ∈ l) :
    l.filter (fun y => y == c) = [c] := by
  induction l with
  | nil => cases hc
  | cons h t ih =>
    rcases List.nodup_cons.mp hnd with ⟨hht, hts⟩
    by_cases hhc : h = c
    · subst hhc
      simp [List.filter_cons, filter_beq_nil hht]
    · have hct : c ∈ t := by
        rcases List.mem_cons.mp hc with h' | h'
        · exact absurd h'.symm hhc
        · exact h'
      simp [List.filter_cons, hhc, ih hts hct]

/-- Sample manager used to instantiate hypotheses at concrete inputs:
three connections 0, 1, 2 in room "general" with usernames alice, bob,
carol. -/
def mSample : ConnManager :=
  { active := [0, 1, 2]
    rooms := fun r => if r = "general" then some [0, 1, 2] else none
    usernames := fun w =>
      if w = 0 then some "alice"
      else if w = 1 then some "bob"
      else if w = 2 then some "carol"
      else none }

/-! ## Claims about the connection manager -/

/-- C5: broadcasting to a room whose member set is `mem` while exactly one
member `c` fails still delivers to every other member (and not to `c`); the
resulting state is exactly the one produced by `disconnect` on `c`, so `c`
is no longer in the room's member set; the failure never escapes to the
caller. -/
theorem broadcast_room_partial_failure (m : ConnManager) (rid : String) (c : Nat)
    (mem : List Nat) (hmem : m.rooms rid = some mem) (hnd : mem.Nodup) (hc : c ∈ mem) :
    (∀ x ∈ mem, x ≠ c → x ∈ (broadcastToRoom m rid (fun y => y == c)).1) ∧
    c ∉ (broadcastToRoom m rid (fun y => y == c)).1 ∧
    (broadcastToRoom m rid (fun y => y == c)).2 = (disconnect m c rid).2 ∧
    c ∉ ((broadcastToRoom m rid (fun y => y == c)).2.rooms rid).getD [] := by
  have hres : broadcastToRoom m rid (fun y => y == c) =
      (mem.filter (fun y => !(y == c)), (disconnect m c rid).2) := by
    simp only [broadcastToRoom, hmem, filter_beq_singleton hnd hc,
      List.foldl_cons, List.foldl_nil]
  have hnotmem : c ∉ ((disconnect m c rid).2.rooms rid).getD [] := by
    simp only [disconnect, hmem, if_pos hc]
    by_cases hnil : mem.erase c = []
    · simp [hnil]
    · simp only [if_neg hnil, if_pos rfl, Option.getD_some]
      exact hnd.not_mem_erase
  refine ⟨?_, ?_, ?_, ?_⟩
  · intro x hx hxc
    rw [hres]
    simp [List.mem_filter, hx, hxc]
  · rw [hres]
    simp [List.mem_filter]
  · rw [hres]
  · rw [hres]
    exact hnotmem

/-- Witness for C5: in `mSample`, a broadcast to "general" where connection 1
fails still reaches connection 0, and 1 is gone from the room's member set
afterwards. -/
theorem broadcast_room_partial_failure_witness :
    0 ∈ (broadcastToRoom mSample "general" (fun y => y == 1)).1 ∧
    1 ∉ ((broadcastToRoom mSample "general" (fun y => y == 1)).2.rooms "general").getD [] := by
  have h := broadcast_room_partial_failure mSample "general" 1 [0, 1, 2] rfl
    (by decide) (by decide)
  exact ⟨h.1 0 (by decide) (by decide), h.2.2.2⟩

/-- C6 counterexample: in `mSample`, a `broadcast_all` in which connection 1
fails removes 1 from the global active list, but 1 is still in room
"general"'s member set and still in the connection-to-username map — so the
cleanup does not go through `disconnect` as the claim states. -/
theorem broadcast_all_leaves_room_and_username :
    1 ∉ ((broadcastAll mSample (fun y => y == 1)).2).active ∧
    1 ∈ (((broadcastAll mSample (fun y => y == 1)).2).rooms "general").getD [] ∧
    ((broadcastAll mSample (fun y => y == 1)).2).usernames 1 = some "bob" := by
  refine ⟨by decide, ?_, rfl⟩
  show 1 ∈ (mSample.rooms "general").getD []
  decide

/-- C6 (amended): `broadcast_all` isolates per-connection failures — a
failing connection does not abort delivery to the rest — and the failing
connection is removed from the global active-connections list only (not via
`disconnect`): the room member sets and the connection-to-username map are
left unchanged. -/
theorem broadcast_all_failure_isolation (m : ConnManager) (c : Nat)
    (hc : c ∈ m.active) (hnd : m.active.Nodup) :
    (∀ x ∈ m.active, x ≠ c → x ∈ (broadcastAll m (fun y => y == c)).1) ∧
    c ∉ (broadcastAll m (fun y => y == c)).1 ∧
    c ∉ ((broadcastAll m (fun y => y == c)).2).active ∧
    ((broadcastAll m (fun y => y == c)).2).rooms = m.rooms ∧
    ((broadcastAll m (fun y => y == c)).2).usernames = m.usernames := by
  have hres : broadcastAll m (fun y => y == c) =
      (m.active.filter (fun y => !(y == c)),
       { m with active := if c ∈ m.active then m.active.erase c else m.active }) := by
    simp only [broadcastAll, filter_beq_singleton hnd hc, List.foldl_cons, List.foldl_nil]
  refine ⟨?_, ?_, ?_, ?_, ?_⟩
  · intro x hx hxc
    rw [hres]
    simp [List.mem_filter, hx, hxc]
  · rw [hres]
    simp [List.mem_filter]
  · rw [hres]
    simp only [if_pos hc]
    exact hnd.not_mem_erase
  · rw [hres]
  · rw [hres]

/-- Witness for C6's amended theorem: in `mSample` with connection 1
failing, connection 0 is still delivered to and 1 leaves the active list. -/
theorem broadcast_all_failure_isolation_witness :
    0 ∈ (broadcastAll mSample (fun y => y == 1)).1 ∧
    1 ∉ ((broadcastAll mSample (fun y => y == 1)).2).active := by
  have h := broadcast_all_failure_isolation mSample 1 (by decide) (by decide)
  exact ⟨h.1 0 (by decide) (by decide), h.2.2.1⟩

/-- A manager with a single connection 0 in room "r" and no recorded
username. -/
def mNoName : ConnManager :=
  { active := [0]
    rooms := fun r => if r = "r" then some [0] else none
    usernames := fun _ => none }

/-- C7 counterexample: disconnecting a connection with no recorded username
returns the sentinel "Unknown" (capitalized), not the claimed "unknown". -/
theorem disconnect_sentinel_capitalized :
    (disconnect mNoName 0 "r").1 = "Unknown" ∧
    (disconnect mNoName 0 "r").1 ≠ "unknown" := by
  refine ⟨rfl, ?_⟩
  intro h
  exact absurd h (by decide)

/-- A disconnect of a connection that is absent from the active list, from
the room's member set and from the username map is a no-op returning the
sentinel. -/
lemma disconnect_noop (m1 : ConnManager) (ws : Nat) (rid : String)
    (hna : ws ∉ m1.active) (hnr : ws ∉ (m1.rooms rid).getD [])
    (hnu : m1.usernames ws = none) :
    disconnect m1 ws rid = ("Unknown", m1) := by
  have h1 : (disconnect m1 ws rid).1 = "Unknown" := by
    show (m1.usernames ws).getD "Unknown" = "Unknown"
    rw [hnu]
    rfl
  have h2 : (disconnect m1 ws rid).2 = m1 := by
    apply ConnManager.ext
    · show m1.active.erase ws = m1.active
      exact List.erase_of_not_mem hna
    · show (disconnect m1 ws rid).2.rooms = m1.rooms
      cases hm2 : m1.rooms rid with
      | none => simp only [disconnect, hm2]
      | some mem2 =>
        have hws2 : ws ∉ mem2 := by
          rw [hm2] at hnr
          exact hnr
        simp only [disconnect, hm2, if_neg hws2]
    · funext w
      show (if w = ws then none else m1.usernames w) = m1.usernames w
      by_cases hw : w = ws
      · subst hw
        rw [hnu, if_pos rfl]
      · rw [if_neg hw]
  rw [show disconnect m1 ws rid = ((disconnect m1 ws rid).1, (disconnect m1 ws rid).2) from rfl,
    h1, h2]

/-- C7 (amended): `disconnect` returns the previously associated username,
with the sentinel "Unknown" when none was recorded; it removes the
connection from the global list and from the room's member set; when the
member set becomes empty the room entry is dropped, after which (as for any
unknown room) `get_room_users` returns the empty list; a repeated call for
the same connection is a safe no-op returning the sentinel. -/
theorem disconnect_spec (m : ConnManager) (ws : Nat) (rid : String)
    (hact : m.active.Nodup)
    (hroom : ∀ mem, m.rooms rid = some mem → mem.Nodup) :
    (disconnect m ws rid).1 = (m.usernames ws).getD "Unknown" ∧
    ws ∉ ((disconnect m ws rid).2).active ∧
    ws ∉ (((disconnect m ws rid).2).rooms rid).getD [] ∧
    (m.rooms rid = some [ws] →
      ((disconnect m ws rid).2).rooms rid = none ∧
      getRoomUsers (disconnect m ws rid).2 rid = []) ∧
    (∀ rid2, ((disconnect m ws rid).2).rooms rid2 = none →
      getRoomUsers (disconnect m ws rid).2 rid2 = []) ∧
    (disconnect ((disconnect m ws rid).2) ws rid).1 = "Unknown" ∧
    (disconnect ((disconnect m ws rid).2) ws rid).2 = (disconnect m ws rid).2 := by
  have hactive : ((disconnect m ws rid).2).active = m.active.erase ws := rfl
  have husr : ∀ w, ((disconnect m ws rid).2).usernames w =
      if w = ws then none else m.usernames w := fun w => rfl
  have hnotact : ws ∉ ((disconnect m ws rid).2).active := by
    rw [hactive]
    exact hact.not_mem_erase
  have hnotroom : ws ∉ (((disconnect m ws rid).2).rooms rid).getD [] := by
    cases hmr : m.rooms rid with
    | none =>
      simp only [disconnect, hmr]
      simp [hmr]
    | some mem =>
      by_cases hin : ws ∈ mem
      · by_cases hnil : mem.erase ws = []
        · simp only [disconnect, hmr, if_pos hin, if_pos hnil]
          simp
        · simp only [disconnect, hmr, if_pos hin, if_neg hnil, if_pos rfl, Option.getD_some]
          exact (hroom mem hmr).not_mem_erase
      · simp only [disconnect, hmr, if_neg hin]
        simp [hmr, hin]
  have hempty : ∀ rid2, ((disconnect m ws rid).2).rooms rid2 = none →
      getRoomUsers (disconnect m ws rid).2 rid2 = [] := by
    intro rid2 h
    simp [getRoomUsers, h]
  have hdropped : m.rooms rid = some [ws] → ((disconnect m ws rid).2).rooms rid = none := by
    intro hmr
    have hin : ws ∈ [ws] := List.mem_singleton.mpr rfl
    have hnil : ([ws] : List Nat).erase ws = [] := by simp
    simp only [disconnect, hmr, if_pos hin, if_pos hnil]
    simp
  have husr0 : ((disconnect m ws rid).2).usernames ws = none := by
    rw [husr ws]
    simp
  have hnoop := disconnect_noop ((disconnect m ws rid).2) ws rid hnotact hnotroom husr0
  have hs1 : (disconnect ((disconnect m ws rid).2) ws rid).1 = "Unknown" := by rw [hnoop]
  have hs2 : (disconnect ((disconnect m ws rid).2) ws rid).2 = (disconnect m ws rid).2 := by
    rw [hnoop]
  exact ⟨rfl, hnotact, hnotroom, fun hmr => ⟨hdropped hmr, hempty rid (hdropped hmr)⟩,
    hempty, hs1, hs2⟩

/-- Witness for C7's amended theorem: disconnecting connection 2 from
"general" in `mSample` returns "carol" and removes 2 from the room;
a second disconnect returns "Unknown". -/
theorem disconnect_spec_witness :
    (disconnect mSample 2 "general").1 = "carol" ∧
    2 ∉ (((disconnect mSample 2 "general").2).rooms "general").getD [] ∧
    (disconnect ((disconnect mSample 2 "general").2) 2 "general").1 = "Unknown" := by
  have h := disconnect_spec mSample 2 "general" (by decide)
    (by
      intro mem hm
      rw [show mSample.rooms "general" = some [0, 1, 2] from rfl] at hm
      cases hm
      decide)
  exact ⟨h.1.trans rfl, h.2.2.1, h.2.2.2.2.2.1⟩

/-! ## Chat service (src/app/services/chat.py)

`ChatService.delete_message` looks a message up by primary key, checks
authorship, and deletes it.  The message table is modelled as a list of rows;
primary-key lookup is `find?` on the id. -/

structure StoredMessage where
  id : Nat
  content : String
  sender_id : Nat
  room_id : String
deriving DecidableEq, Repr

/-- Embeds `ChatService.delete_message` (chat.py lines 154-179): `False` when
the message does not exist or the requester is not the author (no deletion);
otherwise delete the message and return `True`.  Note the Python function
returns a boolean, not the message's room id. -/
def deleteMessage (msgs : List StoredMessage) (message_id user_id : Nat) :
    Bool × List StoredMessage :=
  match msgs.find? (fun mm => mm.id == message_id) with
  | none => (false, msgs)
  | some mm =>
    if mm.sender_id ≠ user_id then (false, msgs)
    else (true, msgs.eraseP (fun x => x.id == message_id))

/-- C9: on a store holding message 1 authored by user 1 in room "general",
an authorized delete removes the message but returns the boolean `true` —
not the message's room id "general" as the claim (and the REST caller in
routes/chat.py, which broadcasts to the returned value as a room id) expect;
an unauthorized delete returns `false` with the store unchanged. -/
theorem delete_message_returns_bool :
    deleteMessage [⟨1, "hi", 1, "general"⟩] 1 1 = (true, []) ∧
    deleteMessage [⟨1, "hi", 1, "general"⟩] 1 2 = (false, [⟨1, "hi", 1, "general"⟩]) := by
  constructor <;> rfl

end ChatShield
